import Mathlib

/-!
Verification of the aurora client v2 command-line layer: the shard-selector
parsing algorithm, the noun/verb dispatch framework, the execution context
and the job lifecycle monitor, shallowly embedded from the Python sources
under src/main/python/twitter/aurora.
-/

namespace Aurora

/-! ## Exit code constants (client/cli package init file, lines 27-35) -/

def EXIT_OK : Nat := 0
def EXIT_INVALID_CONFIGURATION : Nat := 3
def EXIT_COMMAND_FAILURE : Nat := 4
def EXIT_INVALID_COMMAND : Nat := 5
def EXIT_INVALID_PARAMETER : Nat := 6
def EXIT_NETWORK_ERROR : Nat := 7
def EXIT_PERMISSION_VIOLATION : Nat := 8
def EXIT_TIMEOUT : Nat := 9
def EXIT_UNKNOWN_ERROR : Nat := 20

/-- Python exceptions that can arise in the embedded control flows.
commandError is Context.CommandError carrying (code, message); invalidVerb is
Noun.InvalidVerbException; systemExit models sys.exit(code); timeoutError is
the monitor timeout; the rest are the builtin Python exception kinds raised
by the code under src/. -/
inductive PyErr
  | valueError (msg : String)
  | typeError (msg : String)
  | nameError (missing : String)
  | attributeError (msg : String)
  | commandError (code : Nat) (msg : String)
  | invalidVerb (msg : String)
  | systemExit (code : Nat)
  | timeoutError
  deriving DecidableEq

instance {ε α : Type _} [DecidableEq ε] [DecidableEq α] : DecidableEq (Except ε α) :=
  fun x y =>
  match x, y with
  | .ok a, .ok b =>
      if h : a = b then .isTrue (by rw [h]) else .isFalse (fun he => h (Except.ok.inj he))
  | .error a, .error b =>
      if h : a = b then .isTrue (by rw [h]) else .isFalse (fun he => h (Except.error.inj he))
  | .ok _, .error _ => .isFalse (fun he => Except.noConfusion he)
  | .error _, .ok _ => .isFalse (fun he => Except.noConfusion he)

/-! ## Character-level string helpers.

Python str.split with a one-character separator, and the digit tests used to
model the builtin int(); they recurse structurally over the character list of
the string so that concrete instances evaluate inside the kernel. -/

/-- Embedding of Python str.split(sep) for a one-character separator, on the
character list: splitting the empty string yields one empty piece, and every
occurrence of the separator starts a new piece. Both separators appearing in
the source (comma and dash) are single characters. -/
def splitChars (sep : Char) : List Char → List (List Char)
  | [] => [[]]
  | c :: cs =>
      let r := splitChars sep cs
      if c = sep then [] :: r
      else
        match r with
        | [] => [[c]]
        | g :: gs => (c :: g) :: gs

/-- Python s.split(sep) for a one-character separator, as a list of strings. -/
def pySplit (sep : Char) (s : String) : List String :=
  (splitChars sep s.data).map String.mk

/-- Syntactic test: a non-empty all-digit string. -/
def isDigits (s : String) : Bool :=
  !s.data.isEmpty && s.data.all Char.isDigit

/-- Numeric value of a decimal digit string, most significant digit first. -/
def strDigitsVal (s : String) : Nat :=
  s.data.foldl (fun n c => 10 * n + (c.toNat - 48)) 0

/-- Numeric value of a decimal digit list, most significant digit first. -/
def digitsVal (l : List Char) : Nat :=
  l.foldl (fun n c => 10 * n + (c.toNat - 48)) 0

/-- Whitespace stripping as Python int() performs around a literal (the ASCII
whitespace characters). -/
def stripWS (l : List Char) : List Char :=
  ((l.dropWhile Char.isWhitespace).reverse.dropWhile Char.isWhitespace).reverse

/-- Test for the strings Python int() accepts among those that can reach it
from shard_range_parser. Its argument is always a piece of a split on the
dash character and therefore never contains a dash; on such strings int()
accepts optional surrounding whitespace and an optional leading plus sign
followed by one or more decimal digits (a leading minus would require a dash,
which cannot occur in a piece of a dash-split). -/
def isIntLiteral (s : String) : Bool :=
  let t := stripWS s.data
  let ds := if t.headD ' ' = '+' then t.tail else t
  !ds.isEmpty && ds.all Char.isDigit

/-- Digits of an accepted int() literal, surrounding whitespace and the
optional plus sign removed. -/
def intDigits (s : String) : List Char :=
  let t := stripWS s.data
  if t.headD ' ' = '+' then t.tail else t

/-- Embedding of the Python builtin int() on the strings that reach it from
shard_range_parser (pieces of a dash-split, hence dash-free): surrounding
whitespace and an optional plus sign are tolerated, then a non-empty digit
string evaluates to its value; anything else raises ValueError naming the
offending text. -/
def pyIntNat (s : String) : Except PyErr Nat :=
  if isIntLiteral s then .ok (digitsVal (intDigits s))
  else .error (.valueError ("invalid literal for int with base 10: " ++ s))

/-! ## Shard selector parsing (client/cli/jobs.py lines 29-47) -/

/-- Embedding of the per-token step of shard_range_parser (jobs.py lines
40-41): x = part.split on dash; range(int(x[0]), int(x[-1]) + 1). Python
str.split never returns an empty list, so x[0] and x[-1] are headD and
getLastD. -/
def parseRangeToken (part : String) : Except PyErr (Finset Nat) := do
  let x := pySplit '-' part
  let a ← pyIntNat (x.headD "")
  let b ← pyIntNat (x.getLastD "")
  return Finset.Ico a (b + 1)

/-- Embedding of the loop of shard_range_parser (jobs.py lines 38-41): the
indices of each comma-separated token are accumulated into one set, stopping
at the first token whose endpoint fails int(). -/
def collectTokens : List String → Except PyErr (Finset Nat)
  | [] => .ok ∅
  | p :: ps => do
      let t ← parseRangeToken p
      let rest ← collectTokens ps
      return t ∪ rest

/-- Embedding of shard_range_parser (client/cli/jobs.py lines 37-42): split
the selector on commas, accumulate range(int(x[0]), int(x[-1])+1) for each
token into a set, and return the ascending sort of that set. -/
def shard_range_parse (shards : String) : Except PyErr (List Nat) :=
  (collectTokens (pySplit ',' shards)).map (fun s => s.sort (· ≤ ·))

/-- Embedding of parse_shards_into (client/cli/jobs.py lines 29-47). The
argument is the raw --shards option value: None (flag absent) or a string.
The Python body runs a loop over values whose body evaluates the undefined
name value (the loop variable is v), so: iterating None raises TypeError; a
non-empty string enters the loop and raises NameError at the first
iteration; the empty string never enters the loop and returns []. -/
def parse_shards_into (values : Option String) : Except PyErr (List (List Nat)) :=
  match values with
  | none => .error (.typeError "NoneType object is not iterable")
  | some s => if s.data.isEmpty then .ok [] else .error (.nameError "value")

/-- Integers a token explicitly names or range-implies (claim wording): a
single integer names itself, a range token implies the inclusive interval. -/
def tokenShards (part : String) : Finset Nat :=
  match pySplit '-' part with
  | [d] => {strDigitsVal d}
  | [d1, d2] => Finset.Icc (strDigitsVal d1) (strDigitsVal d2)
  | _ => ∅

/-- Well-formed token per the claim: a single non-negative integer, or an
inclusive range a-b with a less than or equal to b. -/
def wfToken (part : String) : Bool :=
  match pySplit '-' part with
  | [d] => isDigits d
  | [d1, d2] => isDigits d1 && isDigits d2 && decide (strDigitsVal d1 ≤ strDigitsVal d2)
  | _ => false

/-- Well-formed selector per the claim: non-empty, all tokens well-formed. -/
def wfSelector (s : String) : Bool :=
  !s.data.isEmpty && (pySplit ',' s).all wfToken

/-- All integers a selector explicitly names or range-implies. -/
def namedShards (s : String) : Finset Nat :=
  ((pySplit ',' s).map tokenShards).foldr (· ∪ ·) ∅


/-! ## Job keys, responses, traces and execution context capabilities -/


structure AuroraJobKey where
  cluster : String
  role : String
  env : String
  name : String
  deriving DecidableEq

/-- Modelled from the spec: AuroraJobKey.from_path (module
twitter.aurora.common.aurora_job_key is not under src/). The path must split
into exactly four non-empty slash-delimited components, taken verbatim;
anything else is a format error. -/
def AuroraJobKey.from_path (s : String) : Except PyErr AuroraJobKey :=
  match pySplit '/' s with
  | [c, r, e, n] =>
      if c.data.isEmpty || r.data.isEmpty || e.data.isEmpty || n.data.isEmpty then
        .error (.valueError ("Invalid path " ++ s))
      else .ok ⟨c, r, e, n⟩
  | _ => .error (.valueError ("Invalid path " ++ s))

/-- Scheduler response codes (generated thrift types, external to src/): the
client only inspects the distinction OK versus non-OK. -/
inductive ResponseCode
  | OK
  | ERROR
  | INVALID_REQUEST
  deriving DecidableEq

structure Response where
  responseCode : ResponseCode
  message : String
  deriving DecidableEq

/-- Aggregate classification of the task states of a job, as reduced by the
monitor (spec section 4.5). -/
inductive AggregateState
  | PENDING
  | RUNNING
  | FINISHED
  | UNKNOWN
  deriving DecidableEq

/-- Record of the externally visible effects of one embedded command run:
scheduler mutation calls with their arguments, monitor polls, browser opens,
log lines and printed lines. -/
structure Trace where
  createCalls : Nat := 0
  killCalls : List (Option AuroraJobKey × List (List Nat) × Option String) := []
  restartCalls : Nat := 0
  polls : Nat := 0
  browserOpens : Nat := 0
  logs : List String := []
  printed : List String := []
  deriving DecidableEq

/-- Scripted external collaborators: the scheduler API handle obtained from
make_client, outside src/. Responses and task statuses are scripted per
invocation so the embedded flows are deterministic functions; monitorBudget
is the attempt budget the monitor runs with. -/
structure FakeApi where
  createJobResp : Response := ⟨.OK, "ok"⟩
  killJobResp : Response := ⟨.OK, "ok"⟩
  restartResp : Response := ⟨.OK, "ok"⟩
  statuses : Nat → AggregateState := fun _ => .RUNNING
  monitorBudget : Nat := 1

/-- Outcome of context.get_job_config: the external config loader either
yields a config bound to (cluster, role, environment, name) or raises
InvalidConfigError. -/
inductive ConfigResult
  | ok (cluster role env name : String)
  | invalid (msg : String)
  deriving DecidableEq

/-- Embedding of AuroraCommandContext.check_and_log_response
(client/cli/context.py lines 19-23): log the scheduler response and, on a
non-OK response code, call sys.exit(EXIT_NETWORK_ERROR). -/
def check_and_log_response (resp : Response) (tr : Trace) : Except PyErr Unit × Trace :=
  let tr := { tr with logs := tr.logs ++ ["Response from scheduler: " ++ resp.message] }
  if resp.responseCode ≠ ResponseCode.OK then
    (.error (.systemExit EXIT_NETWORK_ERROR), tr)
  else (.ok (), tr)

/-! ## Job lifecycle monitor (spec section 4.5) -/

/-- Predicate running-or-finished: true once no instance remains PENDING; a
query failure (UNKNOWN) is transient and does not satisfy it. -/
def running_or_finished : AggregateState → Bool
  | .PENDING => false
  | .UNKNOWN => false
  | .RUNNING => true
  | .FINISHED => true

/-- Predicate terminal: true once every instance has finished. -/
def terminal : AggregateState → Bool
  | .FINISHED => true
  | _ => false

inductive MonitorResult
  | success
  | timeout
  deriving DecidableEq

/-- Modelled from the spec: JobMonitor.wait_until (module
twitter.aurora.client.api.job_monitor is not under src/). On each attempt the
monitor queries the aggregate task state once, returns success immediately if
the predicate holds, otherwise sleeps and retries; an exhausted attempt
budget is a timeout. Arguments: remaining budget, then attempt index; the
second component of the result counts the polls performed. -/
def wait_until (pred : AggregateState → Bool) (states : Nat → AggregateState) :
    Nat → Nat → MonitorResult × Nat
  | 0, _ => (.timeout, 0)
  | budget + 1, i =>
      if pred (states i) then (.success, 1)
      else
        let r := wait_until pred states budget (i + 1)
        (r.1, r.2 + 1)

/-- Monitor invocation as the create flow performs it: run wait_until from
attempt 0 with the scripted budget, account the polls, and raise TimeoutError
when the budget is exhausted. -/
def runMonitor (pred : AggregateState → Bool) (api : FakeApi) (tr : Trace) :
    Except PyErr Unit × Trace :=
  let r := wait_until pred api.statuses api.monitorBudget 0
  let tr := { tr with polls := tr.polls + r.2 }
  match r.1 with
  | .success => (.ok (), tr)
  | .timeout => (.error .timeoutError, tr)

/-! ## Parsed options and the argparse surface -/

/-- Parsed command-line options: the fields argparse binds for the job noun
grammar (setup_options_parser of the create and kill verbs in
client/cli/jobs.py). -/
structure Options where
  noun : String := ""
  verb : String := ""
  shards : Option String := none
  config : Option String := none
  jobspec : Option AuroraJobKey := none
  config_file : String := ""
  open_browser : Bool := false
  json : Bool := false
  wait_until : String := "PENDING"
  deriving DecidableEq

/-- Value of a long option given as a single pfx=value token. -/
def flagValue (pfx : String) (args : List String) : Option String :=
  match args.find? (fun a => pfx.data.isPrefixOf a.data) with
  | some a => some (String.mk (a.data.drop pfx.data.length))
  | none => none

/-- Modelled from the spec and the two-level argparse grammar built by
CommandLine.setup_options_parser and Noun.internal_setup_options_parser
(argparse itself is external library code): the first token selects the noun,
the second the verb, long options are single name=value or boolean tokens,
and the remaining non-option tokens are the positionals (jobspec, then
config_file); the jobspec positional is converted with AuroraJobKey.from_path
as its argparse type. This is only the token-binding half of argparse; the
validation of the noun and verb tokens against the registered subparser
choices, which fails closed with SystemExit(2), is parse_args below. -/
def argsToOptions (args : List String) : Options :=
  let positional := (args.drop 2).filter (fun a => !("--".data.isPrefixOf a.data))
  { noun := args.headD ""
    verb := (args.drop 1).headD ""
    shards := flagValue "--shards=" args
    config := flagValue "--config=" args
    jobspec :=
      match positional with
      | [] => none
      | p :: _ => (AuroraJobKey.from_path p).toOption
    config_file := (positional.drop 1).headD ""
    open_browser := args.contains "--open-browser"
    json := args.contains "--json"
    wait_until := (flagValue "--wait_until=" args).getD "PENDING" }

/-! ## Verb implementations (client/cli/jobs.py) -/

/-- Embedding of CreateJobCommand.execute (client/cli/jobs.py lines 77-92):
load the config, printing and exiting with INVALID_CONFIGURATION on loader
failure; obtain the api handle and construct the monitor; issue create_job;
check the response; optionally open the job page; then wait until the
requested state using the matching predicate. -/
def CreateJobCommand_execute (api : FakeApi) (cfg : ConfigResult) (opts : Options)
    (tr : Trace) : Except PyErr Unit × Trace :=
  match cfg with
  | .invalid msg =>
      let tr := { tr with printed := tr.printed ++ ["Error loading job configuration: " ++ msg] }
      (.error (.systemExit EXIT_INVALID_CONFIGURATION), tr)
  | .ok _ _ _ _ =>
      let tr := { tr with createCalls := tr.createCalls + 1 }
      match check_and_log_response api.createJobResp tr with
      | (.error e, tr) => (.error e, tr)
      | (.ok _, tr) =>
          let tr :=
            if opts.open_browser then { tr with browserOpens := tr.browserOpens + 1 } else tr
          if opts.wait_until = "RUNNING" then runMonitor running_or_finished api tr
          else if opts.wait_until = "FINISHED" then runMonitor terminal api tr
          else (.ok (), tr)

/-- Embedding of KillJobCommand.execute (client/cli/jobs.py lines 111-117):
parse the shards option through parse_shards_into, call kill_job with the
jobspec, the parsed shards and the config option, check the response, then
open the job page. -/
def KillJobCommand_execute (api : FakeApi) (_cfg : ConfigResult) (opts : Options)
    (tr : Trace) : Except PyErr Unit × Trace :=
  match parse_shards_into opts.shards with
  | .error e => (.error e, tr)
  | .ok shards =>
      let tr := { tr with killCalls := tr.killCalls ++ [(opts.jobspec, shards, opts.config)] }
      match check_and_log_response api.killJobResp tr with
      | (.error e, tr) => (.error e, tr)
      | (.ok _, tr) => (.ok (), { tr with browserOpens := tr.browserOpens + 1 })

/-- Modelled from the spec: RestartJobCommand.execute is not under src/ (only
its tests are). Per the spec, restart follows the same shape as create: issue
the restart mutation, check the response through check_and_log_response, and
only then run the polling watcher. -/
def RestartJobCommand_execute (api : FakeApi) (_cfg : ConfigResult) (_opts : Options)
    (tr : Trace) : Except PyErr Unit × Trace :=
  let tr := { tr with restartCalls := tr.restartCalls + 1 }
  match check_and_log_response api.restartResp tr with
  | (.error e, tr) => (.error e, tr)
  | (.ok _, tr) => runMonitor terminal api tr

/-! ## Noun and verb dispatch framework (client/cli package init file) -/

/-- Python dict used as a registry: string-keyed lookup table where
assignment overwrites and lookup returns the latest binding. -/
def PyDict (α : Type) := String → Option α

def dictEmpty {α : Type} : PyDict α := fun _ => none

def dictSet {α : Type} (m : PyDict α) (k : String) (v : α) : PyDict α :=
  fun q => if q = k then some v else m q

/-- A context object as returned by a working create_context; in this
embedding its capabilities (scheduler api, config loader, options) are
threaded explicitly, so the object itself carries no data: what matters is
whether create_context produced one at all. -/
inductive Context
  | mk
  deriving DecidableEq

/-- A verb: its name plus its execution procedure against the context
capabilities, per the Verb class. -/
structure Verb where
  name : String
  run : FakeApi → ConfigResult → Options → Trace → Except PyErr Unit × Trace

/-- A noun: its name, its verb registry, and the value its create_context()
returns, per the Noun class. The base Noun.create_context (lines 138-143)
has body pass and returns None; the Job noun in client/cli/jobs.py never
overrides it (it defines an unused context_type), so the real job noun
carries none here, while the tests patch Job.create_context to return a
working context. -/
structure Noun where
  name : String
  verbs : PyDict Verb
  create_context : Option Context

/-- Embedding of Noun.register_verb (lines 124-128): dict assignment keyed by
the verb name; a duplicate name silently overwrites. -/
def Noun.register_verb (n : Noun) (v : Verb) : Noun :=
  { n with verbs := dictSet n.verbs v.name v }

/-- Embedding of CommandLine.register_noun (lines 78-80): dict assignment
keyed by the noun name; a duplicate name silently overwrites. -/
def register_noun (m : PyDict Noun) (n : Noun) : PyDict Noun :=
  dictSet m n.name n

/-- Embedding of Noun.execute (lines 149-153): a verb missing from the verb
registry raises InvalidVerbException; otherwise the verb runs. -/
def Noun.execute (n : Noun) (api : FakeApi) (cfg : ConfigResult) (opts : Options)
    (tr : Trace) : Except PyErr Unit × Trace :=
  match n.verbs opts.verb with
  | none =>
      (.error (.invalidVerb ("Noun " ++ n.name ++ " does not have a verb " ++ opts.verb)), tr)
  | some v => v.run api cfg opts tr

/-- Modelled from the argparse library (external), which CommandLine.execute
invokes at line 103 against the two-level subparser grammar built from the
registry (setup_options_parser and internal_setup_options_parser): an
argument list whose noun token is not a registered subparser choice, or whose
verb token is not a choice of that noun's verb subparser, makes argparse
print usage and raise SystemExit(2) before any dispatch code runs (the spec,
section 4.4, likewise has this parse stage fail closed on an unknown noun or
verb). On a valid parse the bound options are returned. -/
def parse_args (nouns : PyDict Noun) (args : List String) : Except PyErr Options :=
  let opts := argsToOptions args
  match nouns opts.noun with
  | none => .error (.systemExit 2)
  | some n =>
      match n.verbs opts.verb with
      | none => .error (.systemExit 2)
      | some _ => .ok opts

/-- Embedding of CommandLine.execute (lines 96-113): parse the arguments
(line 103; argparse raises SystemExit(2) on an unknown noun or verb), check
the noun against the registry (lines 104-105, ValueError, unreachable past
argparse), call noun.create_context() and invoke set_options on its result
(lines 107-108) - for a noun whose create_context returns None this raises
AttributeError before any verb runs - then run the noun inside the try
block, catching Context.CommandError by printing its message and returning
its code as the exit code; every other exception propagates. A normal
completion returns Python None. -/
def CommandLine.execute (nouns : PyDict Noun) (api : FakeApi) (cfg : ConfigResult)
    (args : List String) (tr : Trace) : Except PyErr (Option Nat) × Trace :=
  match parse_args nouns args with
  | .error e => (.error e, tr)
  | .ok opts =>
      match nouns opts.noun with
      | none => (.error (.valueError ("Unknown command: " ++ opts.noun)), tr)
      | some n =>
          match n.create_context with
          | none =>
              (.error (.attributeError "NoneType object has no attribute set_options"), tr)
          | some _ =>
              match n.execute api cfg opts tr with
              | (.ok _, tr) => (.ok none, tr)
              | (.error (.commandError code msg), tr) =>
                  (.ok (some code),
                    { tr with printed := tr.printed ++ ["Error executing command: " ++ msg] })
              | (.error e, tr) => (.error e, tr)

/-- The job noun with its create and kill verbs (client/cli/jobs.py lines
120-136); its create_context is the inherited base method returning None. -/
def jobNoun : Noun :=
  Noun.register_verb
    (Noun.register_verb ⟨"job", dictEmpty, none⟩ ⟨"create", CreateJobCommand_execute⟩)
    ⟨"kill", KillJobCommand_execute⟩

/-- The noun registry built by AuroraCommandLine.register_nouns. -/
def auroraRegistry : PyDict Noun := register_noun dictEmpty jobNoun

/-- The job noun as the repo's own tests exercise it: test_kill.py patches
Job.create_context to return a working context, recovering the intended
dispatch path into the verbs. -/
def jobNounPatched : Noun := { jobNoun with create_context := some Context.mk }

/-- Registry holding the test-patched job noun. -/
def patchedRegistry : PyDict Noun := register_noun dictEmpty jobNounPatched

/-! ## Fixtures used by the claim theorems -/

/-- A verb raising Context.CommandError, exercising the dispatch
error-handling path of CommandLine.execute. -/
def failingVerb : Verb :=
  ⟨"fail", fun _ _ _ tr => (.error (.commandError EXIT_COMMAND_FAILURE "boom"), tr)⟩

def failingNoun : Noun :=
  Noun.register_verb ⟨"thing", dictEmpty, some Context.mk⟩ failingVerb

def failingRegistry : PyDict Noun := register_noun dictEmpty failingNoun

/-- An api handle scripted to answer every mutating call with a non-OK
response. -/
def errorApi : FakeApi :=
  { createJobResp := ⟨.ERROR, "whoops"⟩, killJobResp := ⟨.ERROR, "whoops"⟩,
    restartResp := ⟨.ERROR, "whoops"⟩ }

/-- Scripted aggregate state sequence PENDING, PENDING, RUNNING. -/
def scriptPPR : Nat → AggregateState
  | 0 => .PENDING
  | 1 => .PENDING
  | _ => .RUNNING


/-- First-found resolution: the registry hit when present, a fallback
otherwise. -/
def resolveLookup {α : Type} (found : Option α) (dflt : Option α) : Option α :=
  match found with
  | some y => some y
  | none => dflt

/-- Most recent element of a registration sequence bearing a given name: the
specification-side description of last-wins lookup. -/
def lastRegistered {α : Type} (key : α → String) (q : String) : List α → Option α
  | [] => none
  | x :: xs =>
      resolveLookup (lastRegistered key q xs) (if q = key x then some x else none)

/-- A second noun also named job, exercising duplicate registration. -/
def jobNounAlt : Noun := ⟨"job", dictEmpty, none⟩

/-! ## Lemmas about the shard parser -/

theorem not_whitespace_of_digit {c : Char} (h : c.isDigit = true) :
    c.isWhitespace = false := by
  cases hws : c.isWhitespace with
  | false => rfl
  | true =>
      exfalso
      simp only [Char.isWhitespace, Bool.or_eq_true, decide_eq_true_eq] at hws
      rcases hws with ((h1 | h1) | h1) | h1 <;> subst h1 <;> exact absurd h (by decide)

theorem dropWhile_ws_of_digits {l : List Char} (h : l.all Char.isDigit = true) :
    l.dropWhile Char.isWhitespace = l := by
  cases l with
  | nil => rfl
  | cons c cs =>
      simp only [List.all_cons, Bool.and_eq_true] at h
      rw [List.dropWhile_cons, not_whitespace_of_digit h.1]
      simp

theorem stripWS_of_digits {l : List Char} (h : l.all Char.isDigit = true) :
    stripWS l = l := by
  unfold stripWS
  rw [dropWhile_ws_of_digits h,
    dropWhile_ws_of_digits (by rw [List.all_reverse]; exact h), List.reverse_reverse]

/-- On a non-empty all-digit string the embedded int() succeeds with the
digit value: there is no whitespace to strip and no sign to skip. -/
theorem pyIntNat_of_digits {d : String} (h : isDigits d = true) :
    pyIntNat d = .ok (strDigitsVal d) := by
  unfold isDigits at h
  simp only [Bool.and_eq_true, Bool.not_eq_true'] at h
  obtain ⟨hne, hdig⟩ := h
  have hstrip : stripWS d.data = d.data := stripWS_of_digits hdig
  cases hd : d.data with
  | nil => rw [hd] at hne; exact absurd hne (by decide)
  | cons c cs =>
      have hc : c.isDigit = true := by
        rw [hd] at hdig
        simp only [List.all_cons, Bool.and_eq_true] at hdig
        exact hdig.1
      have hcp : ¬((c :: cs).headD ' ' = '+') := by
        intro he
        simp only [List.headD_cons] at he
        subst he
        exact absurd hc (by decide)
      have hstrip2 : stripWS (c :: cs) = c :: cs := by
        rw [← hd]
        exact hstrip
      have hdig2 : (c :: cs).all Char.isDigit = true := by
        rw [← hd]
        exact hdig
      have hlit : isIntLiteral d = true := by
        simp only [isIntLiteral, hd, hstrip2, if_neg hcp]
        simp only [List.isEmpty_cons, Bool.not_false, Bool.true_and]
        exact hdig2
      have hdg : intDigits d = d.data := by
        simp only [intDigits, hd, hstrip2, if_neg hcp]
      unfold pyIntNat
      rw [hlit]
      show Except.ok (digitsVal (intDigits d)) = Except.ok (strDigitsVal d)
      rw [hdg]
      rfl

/-- A well-formed token parses to exactly the integers it names or implies. -/
theorem parseRangeToken_wf {p : String} (h : wfToken p = true) :
    parseRangeToken p = .ok (tokenShards p) := by
  unfold wfToken at h
  unfold parseRangeToken tokenShards
  obtain ⟨x, hx⟩ : ∃ x, pySplit '-' p = x := ⟨_, rfl⟩
  rw [hx] at h ⊢
  rcases x with _ | ⟨d, _ | ⟨d2, _ | _⟩⟩
  · exact absurd h (by simp)
  · replace h : isDigits d = true := h
    have g1 : ([d].headD "") = d := rfl
    have g2 : ([d].getLastD "") = d := rfl
    simp only [g1, g2, pyIntNat_of_digits h]
    show Except.ok (Finset.Ico (strDigitsVal d) (strDigitsVal d + 1)) = _
    rw [Nat.Ico_succ_singleton]
  · replace h : (isDigits d && isDigits d2 &&
        decide (strDigitsVal d ≤ strDigitsVal d2)) = true := h
    simp only [Bool.and_eq_true] at h
    obtain ⟨⟨h1, h2⟩, _⟩ := h
    have g1 : ([d, d2].headD "") = d := rfl
    have g2 : ([d, d2].getLastD "") = d2 := rfl
    simp only [g1, g2, pyIntNat_of_digits h1, pyIntNat_of_digits h2]
    show Except.ok (Finset.Ico (strDigitsVal d) (strDigitsVal d2 + 1)) = _
    rw [Nat.Ico_succ_right]
  · exact absurd h (by simp)

/-- A list of well-formed tokens collects to the union of their index sets. -/
theorem collectTokens_wf {ps : List String} (h : ∀ p ∈ ps, wfToken p = true) :
    collectTokens ps = .ok ((ps.map tokenShards).foldr (· ∪ ·) ∅) := by
  induction ps with
  | nil => rfl
  | cons p ps ih =>
      have hp : wfToken p = true := h p (List.mem_cons_self p ps)
      have hps : ∀ q ∈ ps, wfToken q = true := fun q hq => h q (List.mem_cons_of_mem p hq)
      simp only [collectTokens, parseRangeToken_wf hp, ih hps, List.map_cons, List.foldr_cons]
      rfl

/-- Sorting characterization: the ascending sort of a finite set is the unique
strictly sorted list with the same members. -/
theorem sort_eq_of_sorted_mem (S : Finset ℕ) (l : List ℕ) (hs : l.Sorted (· < ·))
    (hmem : ∀ n, n ∈ l ↔ n ∈ S) : S.sort (· ≤ ·) = l := by
  apply List.eq_of_perm_of_sorted (r := (· ≤ ·))
  · apply List.perm_of_nodup_nodup_toFinset_eq (Finset.sort_nodup _ _) hs.nodup
    rw [Finset.sort_toFinset]
    ext n
    simp [List.mem_toFinset, hmem]
  · exact Finset.sort_sorted _ _
  · exact hs.le_of_lt

theorem shard_range_parse_wf {s : String} (h : wfSelector s = true) :
    shard_range_parse s = .ok ((namedShards s).sort (· ≤ ·)) := by
  unfold wfSelector at h
  simp only [Bool.and_eq_true, List.all_eq_true] at h
  unfold shard_range_parse namedShards
  rw [collectTokens_wf (fun p hp => h.2 p hp)]
  rfl

end Aurora

/-! ## Claim C1 -/

namespace Aurora

/-- C1: for every non-empty shard selector built from comma-separated tokens,
each a single non-negative integer or an inclusive range a-b with a less than
or equal to b, the shard parser succeeds with a strictly ascending,
duplicate-free sequence containing exactly the integers the selector names or
range-implies; in particular parsing 0,1-3,5 gives [0,1,2,3,5]. -/
theorem c1_shard_parse_sorted_dedup_exact :
    (∀ s : String, wfSelector s = true →
        ∃ l, shard_range_parse s = .ok l ∧ List.Sorted (· < ·) l ∧
          (∀ n, n ∈ l ↔ n ∈ namedShards s)) ∧
    shard_range_parse "0,1-3,5" = .ok [0, 1, 2, 3, 5] := by
  constructor
  · intro s h
    refine ⟨(namedShards s).sort (· ≤ ·), shard_range_parse_wf h, ?_, ?_⟩
    · exact Finset.sort_sorted_lt _
    · intro n
      exact Finset.mem_sort _
  · rw [shard_range_parse_wf (s := "0,1-3,5") (by decide)]
    congr 1
    apply sort_eq_of_sorted_mem
    · decide
    · intro n
      have hset : namedShards "0,1-3,5" =
          {0} ∪ (Finset.Icc 1 3 ∪ ({5} ∪ ∅)) := by decide
      rw [hset]
      simp only [Finset.mem_union, Finset.mem_singleton, Finset.mem_Icc,
        Finset.not_mem_empty, or_false, List.mem_cons, List.not_mem_nil]
      omega

/-- Witness for C1: the well-formedness hypothesis is satisfiable, at the
selector 0,1-3,5. -/
theorem c1_witness :
    wfSelector "0,1-3,5" = true ∧
    ∃ l, shard_range_parse "0,1-3,5" = .ok l ∧ List.Sorted (· < ·) l ∧
      (∀ n, n ∈ l ↔ n ∈ namedShards "0,1-3,5") :=
  ⟨by decide, c1_shard_parse_sorted_dedup_exact.1 "0,1-3,5" (by decide)⟩

end Aurora

/-! ## Claim C2 -/

namespace Aurora

/-- C2 divergence: the shard parser entry point parse_shards_into does not map
None and the empty string to None; it raises TypeError on None and returns
the empty list on the empty string, the outcome the claim says must never
occur. -/
theorem c2_parse_shards_into_none_and_empty :
    parse_shards_into (some "") = .ok [] ∧
    parse_shards_into none = .error (.typeError "NoneType object is not iterable") :=
  ⟨rfl, rfl⟩

end Aurora

/-! ## Claim C4 -/

namespace Aurora

end Aurora

/-! ## Claim C10 -/

namespace Aurora

/-- C10: a reversed range token contributes no indices and raises no error,
and a selector consisting of exactly one such token parses to the empty
sequence. -/
theorem c10_reversed_range_silently_empty :
    (∀ part d1 d2 : String, pySplit '-' part = [d1, d2] →
        isDigits d1 = true → isDigits d2 = true →
        strDigitsVal d2 < strDigitsVal d1 →
        parseRangeToken part = .ok ∅) ∧
    (∀ s d1 d2 : String, pySplit ',' s = [s] → pySplit '-' s = [d1, d2] →
        isDigits d1 = true → isDigits d2 = true →
        strDigitsVal d2 < strDigitsVal d1 →
        shard_range_parse s = .ok []) := by
  have htok : ∀ part d1 d2 : String, pySplit '-' part = [d1, d2] →
      isDigits d1 = true → isDigits d2 = true →
      strDigitsVal d2 < strDigitsVal d1 →
      parseRangeToken part = .ok ∅ := by
    intro part d1 d2 hx h1 h2 hlt
    have g1 : ([d1, d2].headD "") = d1 := rfl
    have g2 : ([d1, d2].getLastD "") = d2 := rfl
    simp only [parseRangeToken, hx, g1, g2, pyIntNat_of_digits h1, pyIntNat_of_digits h2]
    show Except.ok (Finset.Ico (strDigitsVal d1) (strDigitsVal d2 + 1)) = _
    rw [Finset.Ico_eq_empty (by omega : ¬ strDigitsVal d1 < strDigitsVal d2 + 1)]
  refine ⟨htok, ?_⟩
  intro s d1 d2 hs hx h1 h2 hlt
  simp only [shard_range_parse, hs, collectTokens, htok s d1 d2 hx h1 h2 hlt]
  show Except.ok (Finset.sort (· ≤ ·) ((∅ : Finset ℕ) ∪ ∅)) = Except.ok []
  rw [Finset.union_empty, Finset.sort_empty]

/-- Witness for C10: the reversed-range hypotheses are satisfiable, at the
selector 5-2, which parses to the empty sequence. -/
theorem c10_witness :
    pySplit ',' "5-2" = ["5-2"] ∧ pySplit '-' "5-2" = ["5", "2"] ∧
    isDigits "5" = true ∧ isDigits "2" = true ∧
    strDigitsVal "2" < strDigitsVal "5" ∧
    shard_range_parse "5-2" = .ok [] :=
  ⟨by decide, by decide, by decide, by decide, by decide,
    c10_reversed_range_silently_empty.2 "5-2" "5" "2"
      (by decide) (by decide) (by decide) (by decide) (by decide)⟩

end Aurora

/-! ## Claim C3 -/

namespace Aurora

/-- C3 divergence: the argument list parses and resolves to the job noun and
kill verb, but the dispatcher itself then crashes: Job inherits the base
Noun.create_context, which returns None, so context.set_options raises
AttributeError before any verb runs, and kill_job is never called. Even with
create_context patched to return a working context, as the repo tests
arrange, the kill verb crashes at once with NameError on the undefined name
value inside parse_shards_into, still before any kill_job call. In no
configuration is the kill operation invoked with shard set [0,2,4,5,6]. -/
theorem c3_kill_dispatch_crashes_before_kill_call :
    CommandLine.execute auroraRegistry {} (.ok "west" "bozo" "test" "hello")
        ["job", "kill", "--shards=0,2,4-6", "west/bozo/test/hello"] {} =
      (.error (.attributeError "NoneType object has no attribute set_options"), {}) ∧
    CommandLine.execute patchedRegistry {} (.ok "west" "bozo" "test" "hello")
        ["job", "kill", "--shards=0,2,4-6", "west/bozo/test/hello"] {} =
      (.error (.nameError "value"), {}) ∧
    (CommandLine.execute auroraRegistry {} (.ok "west" "bozo" "test" "hello")
        ["job", "kill", "--shards=0,2,4-6", "west/bozo/test/hello"] {}).2.killCalls = [] ∧
    (CommandLine.execute patchedRegistry {} (.ok "west" "bozo" "test" "hello")
        ["job", "kill", "--shards=0,2,4-6", "west/bozo/test/hello"] {}).2.killCalls = [] := by
  exact ⟨by decide, by decide, by decide, by decide⟩

end Aurora

/-! ## Claim C5 -/

namespace Aurora

/-- C5 counterexample: an unknown noun or verb does not yield the
INVALID_COMMAND exit code 5: argparse rejects the token as an invalid
subparser choice and raises SystemExit(2) before any dispatch code runs. -/
theorem c5_counterexample_unknown_noun_verb_not_exit_5 :
    CommandLine.execute auroraRegistry {} (.ok "west" "bozo" "test" "hello")
        ["frob", "kill", "west/bozo/test/hello"] {} = (.error (.systemExit 2), {}) ∧
    (CommandLine.execute auroraRegistry {} (.ok "west" "bozo" "test" "hello")
        ["frob", "kill", "west/bozo/test/hello"] {}).1 ≠
      .ok (some EXIT_INVALID_COMMAND) ∧
    CommandLine.execute auroraRegistry {} (.ok "west" "bozo" "test" "hello")
        ["job", "explode", "west/bozo/test/hello"] {} = (.error (.systemExit 2), {}) ∧
    (CommandLine.execute auroraRegistry {} (.ok "west" "bozo" "test" "hello")
        ["job", "explode", "west/bozo/test/hello"] {}).1 ≠
      .ok (some EXIT_INVALID_COMMAND) := by
  refine ⟨by decide, by decide, by decide, by decide⟩

/-- C5 amended: an argument list whose leading noun token is not in the noun
registry, or whose verb token is not in the selected noun verb registry, is
rejected by argparse itself as an invalid subparser choice: parse_args
raises SystemExit(2), not exit code INVALID_COMMAND(5); the explicit
ValueError and InvalidVerbException checks in the dispatch code are dead for
these inputs. The trace is returned untouched: no remote scheduler call is
ever invoked. -/
theorem c5_amended_argparse_systemexit_no_remote_call :
    (∀ (nouns : PyDict Noun) (api : FakeApi) (cfg : ConfigResult) (args : List String)
        (tr : Trace), nouns (argsToOptions args).noun = none →
        CommandLine.execute nouns api cfg args tr = (.error (.systemExit 2), tr)) ∧
    (∀ (nouns : PyDict Noun) (n : Noun) (api : FakeApi) (cfg : ConfigResult)
        (args : List String) (tr : Trace),
        nouns (argsToOptions args).noun = some n →
        n.verbs (argsToOptions args).verb = none →
        CommandLine.execute nouns api cfg args tr = (.error (.systemExit 2), tr)) := by
  constructor
  · intro nouns api cfg args tr h
    simp only [CommandLine.execute, parse_args, h]
  · intro nouns n api cfg args tr h hv
    simp only [CommandLine.execute, parse_args, h, hv]

/-- Witness for C5 amended: both hypothesis sets are satisfiable against the
job registry, with the unknown noun frob and the unknown verb explode. -/
theorem c5_witness :
    auroraRegistry (argsToOptions ["frob", "kill", "west/bozo/test/hello"]).noun = none ∧
    CommandLine.execute auroraRegistry {} (.ok "w" "r" "e" "n")
        ["frob", "kill", "west/bozo/test/hello"] {} = (.error (.systemExit 2), {}) ∧
    auroraRegistry (argsToOptions ["job", "explode", "west/bozo/test/hello"]).noun =
      some jobNoun ∧
    jobNoun.verbs (argsToOptions ["job", "explode", "west/bozo/test/hello"]).verb = none ∧
    CommandLine.execute auroraRegistry {} (.ok "w" "r" "e" "n")
        ["job", "explode", "west/bozo/test/hello"] {} = (.error (.systemExit 2), {}) :=
  ⟨rfl,
    c5_amended_argparse_systemexit_no_remote_call.1 auroraRegistry {} (.ok "w" "r" "e" "n")
      ["frob", "kill", "west/bozo/test/hello"] {} rfl,
    rfl, rfl,
    c5_amended_argparse_systemexit_no_remote_call.2 auroraRegistry jobNoun {}
      (.ok "w" "r" "e" "n") ["job", "explode", "west/bozo/test/hello"] {} rfl rfl⟩

end Aurora

/-! ## Claim C6 -/

namespace Aurora

/-- C6 counterexample: errors below or inside the dispatcher escape it
uncaught. With the context in place, as the repo tests arrange by patching
Job.create_context, the kill verb without a shards option raises TypeError
inside the verb and the dispatcher returns that error rather than an exit
code; with the unpatched job noun the dispatcher itself raises
AttributeError at context.set_options before any verb runs. -/
theorem c6_counterexample_error_escapes_dispatcher :
    CommandLine.execute patchedRegistry {} (.ok "west" "bozo" "test" "hello")
        ["job", "kill", "west/bozo/test/hello"] {} =
      (.error (.typeError "NoneType object is not iterable"), {}) ∧
    CommandLine.execute auroraRegistry {} (.ok "west" "bozo" "test" "hello")
        ["job", "kill", "west/bozo/test/hello"] {} =
      (.error (.attributeError "NoneType object has no attribute set_options"), {}) := by
  exact ⟨by decide, by decide⟩

/-- C6 amended: on a run that reaches verb execution (arguments parse, the
noun resolves, and its create_context returns a context), every
Context.CommandError raised during verb execution is caught by
CommandLine.execute, its message printed and its code returned as the exit
code; an error of any other kind raised below the dispatcher propagates out
of it uncaught. -/
theorem c6_amended_commanderror_caught_others_escape :
    (∀ (nouns : PyDict Noun) (n : Noun) (ctx : Context) (api : FakeApi)
        (cfg : ConfigResult) (args : List String) (opts : Options) (tr tr2 : Trace)
        (code : Nat) (msg : String),
        parse_args nouns args = .ok opts →
        nouns opts.noun = some n →
        n.create_context = some ctx →
        Noun.execute n api cfg opts tr = (.error (.commandError code msg), tr2) →
        CommandLine.execute nouns api cfg args tr =
          (.ok (some code),
            { tr2 with printed := tr2.printed ++ ["Error executing command: " ++ msg] })) ∧
    (∀ (nouns : PyDict Noun) (n : Noun) (ctx : Context) (api : FakeApi)
        (cfg : ConfigResult) (args : List String) (opts : Options) (tr tr2 : Trace)
        (e : PyErr),
        parse_args nouns args = .ok opts →
        nouns opts.noun = some n →
        n.create_context = some ctx →
        (∀ code msg, e ≠ .commandError code msg) →
        Noun.execute n api cfg opts tr = (.error e, tr2) →
        CommandLine.execute nouns api cfg args tr = (.error e, tr2)) := by
  constructor
  · intro nouns n ctx api cfg args opts tr tr2 code msg hp hn hc hexec
    simp only [CommandLine.execute, hp, hn, hc, hexec]
  · intro nouns n ctx api cfg args opts tr tr2 e hp hn hc hne hexec
    cases e with
    | commandError code msg => exact absurd rfl (hne code msg)
    | valueError msg => simp only [CommandLine.execute, hp, hn, hc, hexec]
    | typeError msg => simp only [CommandLine.execute, hp, hn, hc, hexec]
    | nameError missing => simp only [CommandLine.execute, hp, hn, hc, hexec]
    | attributeError msg => simp only [CommandLine.execute, hp, hn, hc, hexec]
    | invalidVerb msg => simp only [CommandLine.execute, hp, hn, hc, hexec]
    | systemExit code => simp only [CommandLine.execute, hp, hn, hc, hexec]
    | timeoutError => simp only [CommandLine.execute, hp, hn, hc, hexec]

/-- Witness for C6 amended: the hypotheses are satisfiable with a noun whose
create_context works and a verb raising CommandError with code
EXIT_COMMAND_FAILURE and message boom; the dispatcher returns that code and
prints the message. -/
theorem c6_witness :
    parse_args failingRegistry ["thing", "fail"] = .ok (argsToOptions ["thing", "fail"]) ∧
    failingRegistry (argsToOptions ["thing", "fail"]).noun = some failingNoun ∧
    failingNoun.create_context = some Context.mk ∧
    Noun.execute failingNoun {} (.ok "w" "r" "e" "n") (argsToOptions ["thing", "fail"]) {} =
      (.error (.commandError EXIT_COMMAND_FAILURE "boom"), {}) ∧
    CommandLine.execute failingRegistry {} (.ok "w" "r" "e" "n") ["thing", "fail"] {} =
      (.ok (some EXIT_COMMAND_FAILURE),
        { printed := ["Error executing command: boom"] }) :=
  ⟨rfl, rfl, rfl, rfl,
    c6_amended_commanderror_caught_others_escape.1 failingRegistry failingNoun Context.mk
      {} (.ok "w" "r" "e" "n") ["thing", "fail"] (argsToOptions ["thing", "fail"]) {} {}
      EXIT_COMMAND_FAILURE "boom" rfl rfl rfl rfl⟩

end Aurora

/-! ## Claim C7 -/

namespace Aurora

/-- C7: every mutating flow routes its scheduler response through
check_and_log_response, which exits the process with NETWORK_ERROR on any
non-OK response; in the create flow and the spec-modelled restart flow a
non-OK response aborts execution with exit code NETWORK_ERROR after exactly
one mutation call and before the monitor performs a single poll. -/
theorem c7_nonok_response_network_error_before_polling :
    (∀ (resp : Response) (tr : Trace), resp.responseCode ≠ ResponseCode.OK →
        check_and_log_response resp tr =
          (.error (.systemExit EXIT_NETWORK_ERROR),
            { tr with logs := tr.logs ++ ["Response from scheduler: " ++ resp.message] })) ∧
    (∀ (api : FakeApi) (c r e n : String) (opts : Options) (tr : Trace),
        api.createJobResp.responseCode ≠ ResponseCode.OK →
        ∃ tr2, CreateJobCommand_execute api (.ok c r e n) opts tr =
            (.error (.systemExit EXIT_NETWORK_ERROR), tr2) ∧
          tr2.polls = tr.polls ∧ tr2.createCalls = tr.createCalls + 1) ∧
    (∀ (api : FakeApi) (cfg : ConfigResult) (opts : Options) (tr : Trace),
        api.restartResp.responseCode ≠ ResponseCode.OK →
        ∃ tr2, RestartJobCommand_execute api cfg opts tr =
            (.error (.systemExit EXIT_NETWORK_ERROR), tr2) ∧
          tr2.polls = tr.polls ∧ tr2.restartCalls = tr.restartCalls + 1) := by
  have hchk : ∀ (resp : Response) (tr : Trace), resp.responseCode ≠ ResponseCode.OK →
      check_and_log_response resp tr =
        (.error (.systemExit EXIT_NETWORK_ERROR),
          { tr with logs := tr.logs ++ ["Response from scheduler: " ++ resp.message] }) := by
    intro resp tr h
    simp only [check_and_log_response]
    rw [if_pos h]
  refine ⟨hchk, ?_, ?_⟩
  · intro api c r e n opts tr h
    refine ⟨{ tr with createCalls := tr.createCalls + 1, logs := tr.logs ++ ["Response from scheduler: " ++ api.createJobResp.message] }, ?_, rfl, rfl⟩
    simp only [CreateJobCommand_execute,
      hchk api.createJobResp { tr with createCalls := tr.createCalls + 1 } h]
  · intro api cfg opts tr h
    refine ⟨{ tr with restartCalls := tr.restartCalls + 1, logs := tr.logs ++ ["Response from scheduler: " ++ api.restartResp.message] }, ?_, rfl, rfl⟩
    simp only [RestartJobCommand_execute,
      hchk api.restartResp { tr with restartCalls := tr.restartCalls + 1 } h]


/-- Witness for C7: the non-OK hypothesis is satisfiable, with a scripted
error response to create_job; the create flow exits with NETWORK_ERROR,
makes exactly one create call and performs no poll. -/
theorem c7_witness :
    errorApi.createJobResp.responseCode ≠ ResponseCode.OK ∧
    ∃ tr2, CreateJobCommand_execute errorApi (.ok "west" "bozo" "test" "hello") {} {} =
        (.error (.systemExit EXIT_NETWORK_ERROR), tr2) ∧
      tr2.polls = ({} : Trace).polls ∧ tr2.createCalls = ({} : Trace).createCalls + 1 :=
  ⟨by decide,
    c7_nonok_response_network_error_before_polling.2.1 errorApi
      "west" "bozo" "test" "hello" {} {} (by decide)⟩

end Aurora

/-! ## Claim C8 -/

namespace Aurora

/-- C8: against the scripted states PENDING, PENDING, RUNNING with the
running-or-finished predicate, the monitor polls exactly three times and
succeeds, for every sufficient budget; against a permanently PENDING job
with attempt budget n it times out after exactly n polls, never fewer and
never more. -/
theorem c8_monitor_exact_poll_counts :
    (∀ n : Nat, wait_until running_or_finished scriptPPR (n + 3) 0 = (.success, 3)) ∧
    (∀ n : Nat,
        wait_until running_or_finished (fun _ => AggregateState.PENDING) n 0 =
          (.timeout, n)) := by
  constructor
  · intro n
    rfl
  · have haux : ∀ n i : Nat,
        wait_until running_or_finished (fun _ => AggregateState.PENDING) n i =
          (.timeout, n) := by
      intro n
      induction n with
      | zero => intro i; rfl
      | succ m ih =>
          intro i
          simp [wait_until, running_or_finished, ih (i + 1)]
    intro n
    exact haux n 0

end Aurora

/-! ## Claim C9 -/

namespace Aurora


theorem foldl_dictSet_lookup {α : Type} (key : α → String) (xs : List α)
    (m : PyDict α) (q : String) :
    xs.foldl (fun m x => dictSet m (key x) x) m q =
      resolveLookup (lastRegistered key q xs) (m q) := by
  induction xs generalizing m with
  | nil => rfl
  | cons x xs ih =>
      simp only [List.foldl_cons, lastRegistered, ih]
      cases hl : lastRegistered key q xs with
      | some y => rfl
      | none =>
          show dictSet m (key x) x q = resolveLookup (if q = key x then some x else none) (m q)
          simp only [dictSet]
          by_cases hq : q = key x
          · rw [if_pos hq, if_pos hq]
            rfl
          · rw [if_neg hq, if_neg hq]
            rfl

theorem verbs_foldl (vs : List Verb) (n0 : Noun) :
    (vs.foldl Noun.register_verb n0).verbs =
      vs.foldl (fun d v => dictSet d (Verb.name v) v) n0.verbs := by
  induction vs generalizing n0 with
  | nil => rfl
  | cons v vs ih =>
      rw [List.foldl_cons, List.foldl_cons, ih]
      rfl

/-- C9: registration never rejects a duplicate; it is dict assignment, so a
name registered twice is silently replaced, and after any sequence of noun or
verb registrations a lookup returns the most recently registered entry of
that name. -/
theorem c9_registry_last_registration_wins :
    (∀ (regs : List Noun) (m : PyDict Noun) (q : String),
        regs.foldl register_noun m q =
          resolveLookup (lastRegistered Noun.name q regs) (m q)) ∧
    (∀ (vs : List Verb) (n0 : Noun) (q : String),
        (vs.foldl Noun.register_verb n0).verbs q =
          resolveLookup (lastRegistered Verb.name q vs) (n0.verbs q)) ∧
    (∀ (m : PyDict Noun) (a b : Noun), a.name = b.name →
        register_noun (register_noun m a) b a.name = some b) := by
  refine ⟨?_, ?_, ?_⟩
  · intro regs m q
    exact foldl_dictSet_lookup Noun.name regs m q
  · intro vs n0 q
    rw [verbs_foldl]
    exact foldl_dictSet_lookup Verb.name vs n0.verbs q
  · intro m a b hab
    simp [register_noun, dictSet, hab]

/-- Witness for C9: the equal-name hypothesis is satisfiable: registering
jobNoun and then jobNounAlt (both named job) makes lookup of job return
jobNounAlt. -/
theorem c9_witness :
    jobNoun.name = jobNounAlt.name ∧
    register_noun (register_noun dictEmpty jobNoun) jobNounAlt jobNoun.name =
      some jobNounAlt :=
  ⟨rfl, c9_registry_last_registration_wins.2.2 dictEmpty jobNoun jobNounAlt rfl⟩

end Aurora
